import Mathlib

/-!
# AeroMediaService — verification of the ingestion-and-transfer pipeline

Shallow embedding, in Lean 4, of the parts of the AeroMediaService
repository that the specification's claims are about:

* `src/core/monitor.py`   — `MonitorThread.run` (the FolderWatcher scan loop);
* `src/core/uploader.py`  — `UploaderThread.run` and `archive_directory`;
* `src/services/dropbox_client.py`    — `upload_directory`, `_upload_large_file`;
* `src/services/custom_api_client.py` — `upload_directory`, `_upload_file_direct`;
* `src/utils/link_shortener.py`       — `LinkShortener.shorten`;
* `src/models/kunde.py`   — the `Kunde` dataclass.

Python's dynamic values are embedded as `PyVal`; exceptions as `Except PyErr`.
Machine-level I/O (HTTP responses, file reads, `os.rename` outcomes) is
passed in as explicit data, so each embedded operation is a pure function of
its inputs and its environment's outcomes.
-/

/-- Python exceptions that the embedded code can raise. -/
inductive PyErr where
  | unboundLocalError
  | jsonDecodeError (msg : String)
  | typeError (msg : String)
  | valueError (msg : String)
  | attributeError (msg : String)
  | osError (msg : String)
  | exc (msg : String)
deriving Repr, DecidableEq

/-- The values `json.loads` can produce (Python: `None`, `bool`, `int`,
`str`, `dict`; lists and floats are not needed by any of the embedded code
paths). `none` doubles as Python's `None`, exactly as `json.loads` maps
JSON `null` to `None`. -/
inductive PyVal where
  | none
  | bool (b : Bool)
  | int (n : Int)
  | str (s : String)
  | dict (kvs : List (String × PyVal))

/-- Python truthiness for an optional string (`None` and `""` are falsy). -/
def truthyStr : Option String → Bool
  | Option.none => false
  | some s => s ≠ ""

/-- `d.get(k)` on a Python dict: the mapped value, or `None` when absent. -/
def dictGet (kvs : List (String × PyVal)) (k : String) : PyVal :=
  match kvs.find? (fun kv => kv.1 = k) with
  | some kv => kv.2
  | Option.none => PyVal.none

/-- `d.get(k, dflt)` on a Python dict. -/
def dictGetD (kvs : List (String × PyVal)) (k : String) (dflt : PyVal) : PyVal :=
  match kvs.find? (fun kv => kv.1 = k) with
  | some kv => kv.2
  | Option.none => dflt

/-- Python `int(x)`: identity on ints, 0/1 on bools, parse on strings
(`ValueError` when unparseable), `TypeError` on `None` and dicts. -/
def pyInt : PyVal → Except PyErr Int
  | .int n => .ok n
  | .bool b => .ok (if b then 1 else 0)
  | .str s =>
      match s.toInt? with
      | some n => .ok n
      | Option.none => .error (.valueError "invalid literal for int()")
  | .none => .error (.typeError "int() argument must not be NoneType")
  | .dict _ => .error (.typeError "int() argument must not be dict")

/-- Python `str(x)` (the `dict` rendering is not needed by any claim and is
kept schematic). -/
def pyStr : PyVal → String
  | .none => "None"
  | .bool true => "True"
  | .bool false => "False"
  | .int n => toString n
  | .str s => s
  | .dict _ => "dict"

/-- Python `bool(x)` (truthiness). -/
def pyBool : PyVal → Bool
  | .none => false
  | .bool b => b
  | .int n => n ≠ 0
  | .str s => s ≠ ""
  | .dict kvs => !kvs.isEmpty

/-- `os.path.basename` for forward-slash paths: the characters after the
last `/` (implemented over the character list so that it reduces in the
kernel). -/
def basename (p : String) : String :=
  String.mk ((p.data.reverse.takeWhile (fun c => c ≠ '/')).reverse)

/-! ## The `Kunde` dataclass (`src/models/kunde.py`)

```python
@dataclass
class Kunde:
    customer_number: Optional[int] = None
    first_name: Optional[str] = None
    last_name: Optional[str] = None
    email: Optional[str] = None
    phone: Optional[str] = None
    handcam_foto: bool = False
    ... (eight boolean product/payment flags, all defaulting to False)
```
-/

structure Kunde where
  customer_number : Option Int := Option.none
  first_name : Option String := Option.none
  last_name : Option String := Option.none
  email : Option String := Option.none
  phone : Option String := Option.none
  handcam_foto : Bool := false
  handcam_video : Bool := false
  outside_foto : Bool := false
  outside_video : Bool := false
  ist_bezahlt_handcam_foto : Bool := false
  ist_bezahlt_handcam_video : Bool := false
  ist_bezahlt_outside_foto : Bool := false
  ist_bezahlt_outside_video : Bool := false
deriving Repr, DecidableEq

/-- The keyword parameters the generated `Kunde.__init__` accepts: exactly
the dataclass field names. -/
def kundeInitParams : List String :=
  ["customer_number", "first_name", "last_name", "email", "phone",
   "handcam_foto", "handcam_video", "outside_foto", "outside_video",
   "ist_bezahlt_handcam_foto", "ist_bezahlt_handcam_video",
   "ist_bezahlt_outside_foto", "ist_bezahlt_outside_video"]

/-- Field assembly of a `Kunde` from accepted keyword arguments, with the
dataclass defaults for absent keywords. -/
def kundeOfKwargs (kwargs : List (String × PyVal)) : Kunde :=
  let get := dictGet kwargs
  { customer_number := match get "customer_number" with | .int n => some n | _ => Option.none
    first_name := match get "first_name" with | .str s => some s | _ => Option.none
    last_name := match get "last_name" with | .str s => some s | _ => Option.none
    email := match get "email" with | .str s => some s | _ => Option.none
    phone := match get "phone" with | .str s => some s | _ => Option.none
    handcam_foto := pyBool (get "handcam_foto")
    handcam_video := pyBool (get "handcam_video")
    outside_foto := pyBool (get "outside_foto")
    outside_video := pyBool (get "outside_video")
    ist_bezahlt_handcam_foto := pyBool (get "ist_bezahlt_handcam_foto")
    ist_bezahlt_handcam_video := pyBool (get "ist_bezahlt_handcam_video")
    ist_bezahlt_outside_foto := pyBool (get "ist_bezahlt_outside_foto")
    ist_bezahlt_outside_video := pyBool (get "ist_bezahlt_outside_video") }

/-- Calling the dataclass constructor `Kunde(**kwargs)`: Python raises
`TypeError` as soon as some keyword is not an `__init__` parameter. -/
def kundeCall (kwargs : List (String × PyVal)) : Except PyErr Kunde :=
  if (kwargs.map Prod.fst).all (fun k => kundeInitParams.contains k) then
    .ok (kundeOfKwargs kwargs)
  else
    .error (.typeError "__init__() got an unexpected keyword argument")

/-! ## FolderWatcher scan step (`src/core/monitor.py`, `MonitorThread.run`)

Per matching directory (a child directory that contains `_fertig.txt`),
`run` does, in one and the same function frame for the thread's whole
lifetime:

```python
try:
    with open(marker_file_path, ...) as marker_file:
        kundendaten = marker_file.read().strip()
except Exception as e:
    self.log.error(...)
kunde = None
if kundendaten:                       # NameError when never assigned
    data = json.loads(kundendaten)    # NOT guarded: raises to the scan-level handler
    kunde = Kunde(kunde_id=int(data.get('kunde_id')), email=str(...),
                  vorname=..., nachname=..., telefon=..., foto=..., video=...)
try:
    os.rename(marker_file_path, processing_marker_path)
    self.upload_queue.put({"dir_path": full_dir_path, "kunde": kunde})
except OSError as e:
    self.log.error(...)
```

`kundendaten` is a local of `run` that is only ever assigned inside the
guarded read; the embedding threads it through as `binding : Option String`
(`Option.none` = not yet bound). An exception that escapes a directory step
is caught by the scan-level `except Exception` and ends the scan cycle.
-/

/-- What one matching directory presents to the scanner: its name, the
outcome of reading (and stripping) its `_fertig.txt`, and whether the
`os.rename` claim would succeed. -/
structure DirScan where
  name : String
  readResult : Except PyErr String
  renameOk : Bool

/-- A Job descriptor as put on the upload queue. -/
structure Job where
  dir_path : String
  kunde : Option Kunde
deriving Repr, DecidableEq

/-- Result of processing one matching directory. -/
structure DirStepResult where
  /-- the `kundendaten` binding after the step -/
  binding : Option String
  /-- was `_fertig.txt` renamed to `_in_verarbeitung.txt` (the claim)? -/
  renamed : Bool
  /-- the Job enqueued for this directory, if any -/
  enqueued : Option Job
  /-- an exception escaping to the scan-level handler, aborting the cycle -/
  abort : Option PyErr
deriving Repr, DecidableEq

/-- `kunde = None; if kundendaten: data = json.loads(...); kunde = Kunde(...)` -/
def monitorParseKunde (loads : String → Except PyErr PyVal) (kundendaten : String) :
    Except PyErr (Option Kunde) :=
  if kundendaten ≠ "" then
    match loads kundendaten with
    | .error e => .error e
    | .ok data =>
      match data with
      | .dict obj =>
        -- arguments are evaluated before the call; int() can itself raise
        match pyInt (dictGet obj "kunde_id") with
        | .error e => .error e
        | .ok kid =>
          match kundeCall
              [("kunde_id", .int kid),
               ("email", .str (pyStr (dictGet obj "email"))),
               ("vorname", .str (pyStr (dictGet obj "vorname"))),
               ("nachname", .str (pyStr (dictGet obj "nachname"))),
               ("telefon", .str (pyStr (dictGet obj "telefon"))),
               ("foto", .bool (pyBool (dictGet obj "foto"))),
               ("video", .bool (pyBool (dictGet obj "video")))] with
          | .error e => .error e
          | .ok k => .ok (some k)
      | _ => .error (.attributeError "object has no attribute get")
  else
    .ok Option.none

/-- One per-directory step of the scan loop of `MonitorThread.run`. -/
def processDir (loads : String → Except PyErr PyVal) (scanPath : String)
    (binding : Option String) (d : DirScan) : DirStepResult :=
  let binding := match d.readResult with
    | .ok s => some s
    | .error _ => binding   -- read failure is logged; binding keeps its old value
  match binding with
  | Option.none =>
      -- `if kundendaten:` with `kundendaten` never assigned
      ⟨Option.none, false, Option.none, some PyErr.unboundLocalError⟩
  | some kundendaten =>
    match monitorParseKunde loads kundendaten with
    | .error e => ⟨some kundendaten, false, Option.none, some e⟩
    | .ok kunde =>
      if d.renameOk then
        ⟨some kundendaten, true,
          some ⟨scanPath ++ "/" ++ d.name, kunde⟩, Option.none⟩
      else
        -- OSError from os.rename is caught and logged; directory skipped
        ⟨some kundendaten, false, Option.none, Option.none⟩

/-- One scan cycle over the matching directories, threading the
`kundendaten` binding; an abort ends the cycle (remaining directories are
not processed), but — the `except` sits inside the `while` — the binding
survives into the next cycle. -/
def scanCycle (loads : String → Except PyErr PyVal) (scanPath : String)
    (binding : Option String) : List DirScan → Option String × List DirStepResult
  | [] => (binding, [])
  | d :: rest =>
    let r := processDir loads scanPath binding d
    match r.abort with
    | some _ => (r.binding, [r])
    | Option.none =>
      let (b', rs) := scanCycle loads scanPath r.binding rest
      (b', r :: rs)

section MonitorChecks

example :
    processDir (fun _ => .error (.jsonDecodeError "Expecting value")) "/watch"
      Option.none ⟨"jobA", .ok "hello", true⟩ =
    ⟨some "hello", false, Option.none, some (.jsonDecodeError "Expecting value")⟩ := rfl

example :
    processDir (fun _ => .ok (.dict [("kunde_id", .int 7)])) "/watch"
      Option.none ⟨"jobA", .ok "", true⟩ =
    ⟨some "", true, some ⟨"/watch/jobA", Option.none⟩, Option.none⟩ := rfl

-- even a well-formed customer record aborts: the dataclass rejects the kwargs
example :
    (processDir (fun _ => .ok (.dict [("kunde_id", .int 7), ("email", .str "a@b")]))
      "/watch" Option.none ⟨"jobA", .ok "x", true⟩).abort =
    some (.typeError "__init__() got an unexpected keyword argument") := rfl

end MonitorChecks

/-! ## UploadWorker (`src/core/uploader.py`)

### `archive_directory(local_dir_path, subfolder_name)`

```python
archive_base_path = self.config.get_setting("archive_path")
if not archive_base_path: ... return
target_dir = os.path.join(archive_base_path, subfolder_name)
if not os.path.exists(target_dir): os.makedirs(target_dir)
dir_name = os.path.basename(local_dir_path)
destination_path = os.path.join(target_dir, dir_name)
if os.path.exists(destination_path):
    destination_path = f"[destination_path]_[int(time.time())]"
shutil.move(local_dir_path, destination_path)
processing_marker_path = os.path.join(destination_path, "_in_verarbeitung.txt")
if os.path.exists(processing_marker_path): os.remove(processing_marker_path)
```

The filesystem is embedded as the set (`List String`) of existing paths at
the granularity the function inspects: archive directories are single
entries, and whether the moved directory still carries its in-progress
marker is tracked by a boolean (`shutil.move` renames the whole tree, so
the source's marker travels to the destination). `os.makedirs`,
`shutil.move` and `os.remove` are modelled on their success paths; their
`except` branches in the source only log and leave the state unchanged. -/

structure ArchiveResult where
  /-- existing archive paths after the call -/
  fs : List String
  /-- where the directory was moved, `Option.none` when it was left in place -/
  dest : Option String
  /-- does the directory at `dest` still contain `_in_verarbeitung.txt`? -/
  destHasMarker : Bool
deriving Repr, DecidableEq

def archive_directory (fs : List String) (srcHasMarker : Bool)
    (archivePath : Option String) (subfolderName : String)
    (localDirPath : String) (now : Nat) : ArchiveResult :=
  if truthyStr archivePath = false then
    -- no archive path configured: warn, leave the directory untouched
    ⟨fs, Option.none, srcHasMarker⟩
  else
    let base := archivePath.getD ""
    let targetDir := base ++ "/" ++ subfolderName
    let fs := if targetDir ∈ fs then fs else targetDir :: fs
    let dirName := basename localDirPath
    let destination₀ := targetDir ++ "/" ++ dirName
    let destination :=
      if destination₀ ∈ fs then destination₀ ++ "_" ++ toString now
      else destination₀
    -- shutil.move, then removal of a leftover in-progress marker at the target
    ⟨destination :: fs.erase localDirPath, some destination, false⟩

/-! ### `UploaderThread.run` — one loop iteration

```python
while self._is_running:
    local_dir_path = None; dir_name = "unbekannt"; kunde = None
    try:
        current_queue_item = self.upload_queue.get()
        if current_queue_item is None or not self._is_running: break
        local_dir_path = ...; kunde = ...; dir_name = os.path.basename(...)
        emit status "Starte Upload: ..."; emit file (0,0,0); emit total (0,0,0)
        upload_success = self.client.upload_directory(local_dir_path, remote_path)
        if not upload_success: raise Exception("Upload-Funktion ...")
        share_link = self.client.get_shareable_link(remote_path)
        if not share_link: log error
        if share_link and kunde and kunde.email:
            self.email_client.send_upload_success_email(dir_name, share_link, kunde.email)
            try: asyncio.run(self.sms_client.send_upload_success_sms(share_link, kunde))
            except Exception: log
        elif not kunde: log warning
        self.archive_directory(local_dir_path, "erfolg")
        emit status "Erfolgreich: ..."
    except Exception as e:
        emit status "Fehler: ..."
        if local_dir_path: self.archive_directory(local_dir_path, "fehler")
        self.email_client.send_upload_failure_email(dir_name, str(e))
    finally:
        if self._is_running:
            emit file (0,0,0); emit total (0,0,0)
            self.upload_queue.task_done()
            emit status "Warte auf nächsten Auftrag..."
```

The observable actions of one iteration are recorded as a `WEvent` trace.
`get_shareable_link` never raises in either client (both wrap their work in
`try/except` and return `None` on failure), so it is passed in as an
`Option String`; the upload call's outcome (a `bool`, or an exception) is
passed in as `Except PyErr Bool`. -/

inductive WEvent where
  | status (s : String)
  | progressFile (percent bytesDone bytesTotal : Nat)
  | progressTotal (percent bytesDone bytesTotal : Nat)
  | emailSuccess (dirName link email : String)
  | smsAttempt (link : String)
  | warnNoKunde (dirName : String)
  | archive (bucket : String) (path : String)
  | emailFailure (dirName err : String)
  | taskDone
deriving Repr, DecidableEq

/-- Steps 2–3 of §4.3: the success-notification block of `UploaderThread.run`
(lines 91–98). SMS failures are absorbed by the inner `try`, so the attempt
itself is the observable event. -/
def notifySequence (dirName : String) (shareLink : Option String)
    (kunde : Option Kunde) : List WEvent :=
  match kunde with
  | some k =>
    if truthyStr shareLink && truthyStr k.email then
      [.emailSuccess dirName (shareLink.getD "") (k.email.getD ""),
       .smsAttempt (shareLink.getD "")]
    else
      []   -- customer present but without a truthy email: nothing at all
  | Option.none => [.warnNoKunde dirName]

/-- `str(e)` for the failure e-mail. -/
def pyErrStr : PyErr → String
  | .unboundLocalError => "local variable referenced before assignment"
  | .jsonDecodeError m => m
  | .typeError m => m
  | .valueError m => m
  | .attributeError m => m
  | .osError m => m
  | .exc m => m

/-- The `try` body of one iteration, for a non-sentinel item: the events it
emits and the exception it raises, if any. -/
def uploaderTryBody (job : Job) (uploadResult : Except PyErr Bool)
    (shareLink : Option String) : List WEvent × Option PyErr :=
  let dirName := basename job.dir_path
  let pre : List WEvent :=
    [.status ("Starte Upload: " ++ dirName), .progressFile 0 0 0, .progressTotal 0 0 0]
  match uploadResult with
  | .error e => (pre, some e)
  | .ok false => (pre, some (.exc "Upload-Funktion des Clients meldete einen Fehler."))
  | .ok true =>
    (pre ++ notifySequence dirName shareLink job.kunde
         ++ [.archive "erfolg" job.dir_path, .status ("Erfolgreich: " ++ dirName)],
     Option.none)

/-- The `finally` block: executed on normal completion, on a handled
exception, and on `break` alike, but its emissions are guarded by
`if self._is_running`. -/
def uploaderFinally (isRunning : Bool) : List WEvent :=
  if isRunning then
    [.progressFile 0 0 0, .progressTotal 0 0 0, .taskDone,
     .status "Warte auf nächsten Auftrag..."]
  else []

/-- One full iteration of the `while` loop of `UploaderThread.run`:
the emitted trace and whether the loop continues to the next dequeue.
`item = Option.none` is the sentinel; `runningAtGet` and
`runningAtFinally` are the values `self._is_running` has at the line-58
check and in the `finally` block. -/
def runIteration (item : Option Job) (runningAtGet : Bool)
    (uploadResult : Except PyErr Bool) (shareLink : Option String)
    (runningAtFinally : Bool) : List WEvent × Bool :=
  match item with
  | Option.none => (uploaderFinally runningAtFinally, false)   -- sentinel: break
  | some job =>
    if runningAtGet = false then (uploaderFinally runningAtFinally, false)
    else
      let (body, err) := uploaderTryBody job uploadResult shareLink
      let dirName := basename job.dir_path
      let handled :=
        match err with
        | Option.none => body
        | some e =>
          body ++ [.status ("Fehler: " ++ dirName)]
               ++ (if job.dir_path ≠ "" then [.archive "fehler" job.dir_path] else [])
               ++ [.emailFailure dirName (pyErrStr e)]
      (handled ++ uploaderFinally runningAtFinally, runningAtFinally)

section UploaderChecks

example :
    (runIteration (some ⟨"/w/jobA", Option.none⟩) true (.ok true) (some "u") true).1 =
    [.status "Starte Upload: jobA", .progressFile 0 0 0, .progressTotal 0 0 0,
     .warnNoKunde "jobA", .archive "erfolg" "/w/jobA", .status "Erfolgreich: jobA",
     .progressFile 0 0 0, .progressTotal 0 0 0, .taskDone,
     .status "Warte auf nächsten Auftrag..."] := rfl

example :
    archive_directory ["/arch/erfolg", "/arch/erfolg/jobA"] true (some "/arch")
      "erfolg" "/w/jobA" 1700000000 =
    ⟨["/arch/erfolg/jobA_1700000000", "/arch/erfolg", "/arch/erfolg/jobA"],
     some "/arch/erfolg/jobA_1700000000", false⟩ := rfl

end UploaderChecks

/-! ## File collection shared by both transports

Both `DropboxClient.upload_directory` and `CustomApiClient.upload_directory`
walk the directory and skip the two marker files by name:

```python
for root, _, files in os.walk(local_dir_path):
    for file in files:
        if file in ["_fertig.txt", "_in_verarbeitung.txt"]: continue
        ... append (file, size) ...
```

A directory's contents are embedded as the `(fileName, size)` pairs the walk
yields. -/

def collectUploadFiles (entries : List (String × Nat)) : List (String × Nat) :=
  entries.filter (fun e => e.1 ≠ "_fertig.txt" && e.1 ≠ "_in_verarbeitung.txt")

/-! ## ChunkedSession transport (`src/services/dropbox_client.py`)

### `_upload_large_file` — the chunked session upload of one file

```python
session_start_result = self.dbx.files_upload_session_start(f.read(CHUNK_SIZE))
cursor = ...(offset=f.tell())
... emit progress ...
while (file_size - f.tell()) > CHUNK_SIZE:
    chunk = f.read(CHUNK_SIZE)
    self.dbx.files_upload_session_append_v2(chunk, cursor)
    cursor.offset = f.tell()
    ... emit progress ...
chunk = f.read()
self.dbx.files_upload_session_finish(chunk, cursor, commit)
... emit progress ...
```

Each network call sends one chunk; a chunk is embedded as the pair
`(offset, length)` of the byte range `f` had read for it. -/

/-- `CHUNK_SIZE = 8 * 1024 * 1024` (dropbox_client.py line 10). -/
def CHUNK_SIZE : Nat := 8 * 1024 * 1024

/-- The `while` loop plus the final `f.read()`: chunks sent from file
position `tell` onwards. -/
def chunksFrom (size tell : Nat) : List (Nat × Nat) :=
  if size - tell > CHUNK_SIZE then
    (tell, CHUNK_SIZE) :: chunksFrom size (tell + CHUNK_SIZE)
  else
    [(tell, size - tell)]
termination_by size - tell
decreasing_by simp [CHUNK_SIZE] at *; omega

/-- All chunks `_upload_large_file` sends for a file of `size` bytes: the
session-start chunk (`f.read(CHUNK_SIZE)` reads at most `CHUNK_SIZE`), the
loop chunks, and the session-finish chunk. -/
def largeFileChunks (size : Nat) : List (Nat × Nat) :=
  (0, min CHUNK_SIZE size) :: chunksFrom size (min CHUNK_SIZE size)

/-! ### Directory-level progress of `DropboxClient.upload_directory`

```python
if total_size == 0:
    signals.upload_progress_total.emit(100, 0, 0)
    return True
bytes_uploaded = 0
for local_path, dropbox_path, file_size in files_to_upload:
    if file_size <= CHUNK_SIZE:
        self.dbx.files_upload(...)
        total_progress = int((bytes_uploaded / total_size) * 100)
        signals.upload_progress_total.emit(total_progress, bytes_uploaded, total_size)
    else:
        self._upload_large_file(f, ..., bytes_uploaded, total_size)
    bytes_uploaded += file_size
```

For a small file the directory-level emission uses `bytes_uploaded` *before*
the increment; `_upload_large_file` emits `base_bytes_uploaded + f.tell()`
after the start chunk, after every loop chunk, and
`base_bytes_uploaded + file_size` after the finish (lines 211–213, 224–226,
234–236). `int((a/b)*100)` is modelled as `a * 100 / b` on `Nat`
(truncating division of the non-negative byte counts). -/

/-- The `bytesDone` values of the directory-level emissions for one file
whose predecessors totalled `base` bytes. -/
def dropboxFileTotalBytes (base size : Nat) : List Nat :=
  if size ≤ CHUNK_SIZE then [base]
  else (largeFileChunks size).map (fun c => base + c.1 + c.2)

/-- The `bytesDone` values of all directory-level emissions across the
files, in upload order. -/
def dropboxTotalBytesList (base : Nat) : List Nat → List Nat
  | [] => []
  | s :: rest => dropboxFileTotalBytes base s ++ dropboxTotalBytesList (base + s) rest

/-- The directory-level percent sequence one `upload_directory` call emits
(on its success path; a raised transfer error truncates this sequence to a
prefix). -/
def dropboxTotalEmissions (sizes : List Nat) : List Nat :=
  let total := sizes.sum
  if total = 0 then [100]
  else (dropboxTotalBytesList 0 sizes).map (fun b => b * 100 / total)

/-- The whole `DropboxClient.upload_directory` call on its success path:
result, the directory-level `(percent, bytesDone, bytesTotal)` emissions,
and the names of the files actually transferred. -/
def dropboxUploadDirectory (entries : List (String × Nat)) :
    Bool × List (Nat × Nat × Nat) × List String :=
  let files := collectUploadFiles entries
  let total := (files.map (·.2)).sum
  if total = 0 then (true, [(100, 0, 0)], [])
  else
    (true,
     (dropboxTotalBytesList 0 (files.map (·.2))).map (fun b => (b * 100 / total, b, total)),
     files.map (·.1))

/-! ## DirectBlobSession transport (`src/services/custom_api_client.py`)

### `_upload_file_direct` (lines 296–386)

The function's interaction with the outside world per file — the presigned
token call's result, the blob `PUT`'s status, and the `/upload/register`
response — is the file's environment. `requests.Response.ok` is
`status_code < 400`. -/

structure DirectFileEnv where
  /-- outcome of `_get_presigned_url`: `(clientToken, pathname)` or a raise -/
  presign : Except PyErr (String × String)
  /-- HTTP status of the blob `PUT` -/
  putStatus : Nat
  /-- HTTP status of `POST /upload/register` -/
  registerStatus : Nat
  /-- truncated `register_response.text` used in the error message -/
  registerText : String
  /-- `register_response.json()`: parse failure raises out of the function -/
  registerBody : Except String PyVal

/-- `_upload_file_direct`: returns `True`, or raises. A non-2xx blob `PUT`
raises; a failed registration (`not register_response.ok`) raises even
though the `PUT` already succeeded. -/
def upload_file_direct (env : DirectFileEnv) : Except PyErr Bool :=
  match env.presign with
  | .error e => .error e   -- logged and re-raised
  | .ok (clientToken, pathname) =>
    if clientToken = "" ∨ pathname = "" then
      .error (.exc "Keine gültige Presigned URL")
    else if env.putStatus ≠ 200 ∧ env.putStatus ≠ 201 then
      .error (.exc ("Upload failed: HTTP " ++ toString env.putStatus))
    else if 400 ≤ env.registerStatus then
      .error (.exc ("File registration failed: HTTP " ++ toString env.registerStatus
        ++ " Response: " ++ env.registerText
        ++ " File uploaded to Blob but NOT registered in database!"))
    else
      match env.registerBody with
      | .error m => .error (.jsonDecodeError m)
      | .ok (.dict _) => .ok true
      | .ok _ => .error (.attributeError "object has no attribute get")

/-- Network calls of the DirectBlobSession variant, for the
no-network-operation claims. -/
inductive NetEvent where
  | initSession
  | presign (file : String)
  | putBlob (file : String)
  | register (file : String)
  | statusPoll
deriving Repr, DecidableEq

/-- The network calls one `_upload_file_direct` invocation performs: the
presigned-URL call always, the blob `PUT` once a token was obtained, the
registration once the `PUT` came back 200/201. -/
def fileNetEvents (env : DirectFileEnv) (name : String) : List NetEvent :=
  .presign name ::
    match env.presign with
    | .error _ => []
    | .ok (clientToken, pathname) =>
      if clientToken = "" ∨ pathname = "" then []
      else
        .putBlob name ::
          (if env.putStatus = 200 ∨ env.putStatus = 201 then [.register name] else [])

/-- `CustomApiClient.upload_directory` with `connected = True` (lines
94–192): collect files; with nothing to upload return `True` before any
network call; otherwise init the session, upload every file (the
`ThreadPoolExecutor`/`as_completed` fan-in is serialised in file order —
the boolean outcome does not depend on completion order, since any raised
per-file error fails the call), and poll `/upload/status` before returning
`True`. `_wait_for_completion` absorbs all its own errors, so it cannot
change the result. -/
def uploadDirectoryDirect (entries : List (String × Nat))
    (initResult : Except PyErr Unit) (fileEnvs : String → DirectFileEnv) :
    Bool × List NetEvent :=
  let files := collectUploadFiles entries
  if files.isEmpty then (true, [])
  else
    match initResult with
    | .error _ => (false, [.initSession])
    | .ok _ =>
      let evs := NetEvent.initSession :: files.flatMap (fun f => fileNetEvents (fileEnvs f.1) f.1)
      if files.all (fun f =>
          match upload_file_direct (fileEnvs f.1) with
          | .ok b => b
          | .error _ => false) then
        (true, evs ++ [.statusPoll])
      else
        (false, evs)

/-- The directory-level emissions of the DirectBlobSession variant
(custom_api_client.py lines 371–379): under `progress_lock`, each completed
file adds its size to the shared counter and emits
`int((counter / total_job_size) * 100)`. `order` is the sequence of file
sizes in completion order. -/
def directTotalEmissions (counter : Nat) (total : Nat) : List Nat → List Nat
  | [] => []
  | s :: rest => (counter + s) * 100 / total :: directTotalEmissions (counter + s) total rest

section TransportChecks

example :
    largeFileChunks (2 * CHUNK_SIZE + 5) =
    [(0, CHUNK_SIZE), (CHUNK_SIZE, CHUNK_SIZE), (2 * CHUNK_SIZE, 5)] := by
  have hm : min CHUNK_SIZE (2 * CHUNK_SIZE + 5) = CHUNK_SIZE := by
    simp [CHUNK_SIZE]
  rw [largeFileChunks, hm, chunksFrom.eq_def, if_pos (by norm_num [CHUNK_SIZE]),
    chunksFrom.eq_def, if_neg (by norm_num [CHUNK_SIZE])]
  norm_num [CHUNK_SIZE]

example : dropboxTotalEmissions [10, 30, 60] = [0, 10, 40] := by
  simp [dropboxTotalEmissions, dropboxTotalBytesList, dropboxFileTotalBytes, CHUNK_SIZE]

example :
    uploadDirectoryDirect [("_fertig.txt", 12)] (.ok ()) (fun _ => ⟨.error (.exc "x"), 0, 0, "", .error ""⟩) =
    (true, []) := rfl

example : directTotalEmissions 0 100 [25, 25, 50] = [25, 50, 100] := rfl

end TransportChecks

/-! ## Link shortener (`src/utils/link_shortener.py`)

```python
api_url = self.config.get_secret("skylink_api_url")
api_key = self.config.get_secret("skylink_api_key")
if not api_url: return long_url
try:
    response = requests.post(api_url, json=data, headers=headers, timeout=5)
    if response.status_code == 201 or response.status_code == 200:
        short_url = response.json().get('short_url')
        return short_url
    else:
        return long_url
except requests.exceptions.Timeout: return long_url
except requests.RequestException as e: return long_url
```

`response.json()` raising (`JSONDecodeError` is a `RequestException`) is
caught and yields `long_url`; `.get` on a non-dict body raises
`AttributeError`, which nothing catches. The returned Python value is a
`PyVal`: `.str` on success, and `PyVal.none` when the 200/201 body carries
no `'short_url'`. -/

inductive ReqOutcome where
  | timeout
  | requestError (msg : String)
  | response (statusCode : Nat) (body : Except String PyVal)

def shorten (apiUrl _apiKey : Option String) (longUrl : String)
    (out : ReqOutcome) : Except PyErr PyVal :=
  if truthyStr apiUrl = false then .ok (.str longUrl)
  else
    match out with
    | .timeout => .ok (.str longUrl)
    | .requestError _ => .ok (.str longUrl)
    | .response statusCode body =>
      if statusCode = 201 || statusCode = 200 then
        match body with
        | .error _ => .ok (.str longUrl)       -- JSONDecodeError ⊆ RequestException
        | .ok (.dict kvs) => .ok (dictGet kvs "short_url")
        | .ok _ => .error (.attributeError "object has no attribute get")
      else .ok (.str longUrl)

section ShortenerChecks

example :
    shorten (some "https://sky.example/api") (some "k") "https://long.example/x"
      (.response 200 (.ok (.dict []))) = .ok PyVal.none := rfl

example :
    shorten (some "https://sky.example/api") Option.none "https://long.example/x"
      (.response 500 (.ok (.dict []))) = .ok (.str "https://long.example/x") := rfl

end ShortenerChecks

/-! # The claims -/

/-- **C1** (code bug, evaluated at the failing input). The claim — and
spec §4.1 step 1 — say a parse failure of non-empty marker content is
logged, the directory is still claimed (marker renamed) and its Job is
enqueued with `customer = nil`. In `MonitorThread.run` however the
`json.loads` call sits *outside* the per-directory `try` that guards only
the file read, so on content that is not valid JSON (here `"hello"`) the
raised `JSONDecodeError` escapes to the scan-level handler: the marker is
not renamed, no Job is enqueued, and the scan cycle aborts before any
further directory (the second conjunct: only one step result is produced
for a two-directory scan). The code's own comment
`# Parse Kundendaten in Kunde Object (optional)` and the guarded read show
the spec's behaviour was the intent. -/
theorem C1_parse_failure_aborts_scan_without_enqueue
    (loads : String → Except PyErr PyVal) (e : PyErr)
    (h : loads "hello" = .error e) :
    processDir loads "/watch" Option.none ⟨"jobA", .ok "hello", true⟩ =
      ⟨some "hello", false, Option.none, some e⟩ ∧
    (scanCycle loads "/watch" Option.none
        [⟨"jobA", .ok "hello", true⟩, ⟨"jobB", .ok "", true⟩]).2 =
      [⟨some "hello", false, Option.none, some e⟩] := by
  have hp : processDir loads "/watch" Option.none ⟨"jobA", .ok "hello", true⟩ =
      ⟨some "hello", false, Option.none, some e⟩ := by
    simp [processDir, monitorParseKunde, h]
  refine ⟨hp, ?_⟩
  simp [scanCycle, hp]

/-- Witness for C1's hypothesis: a `json.loads` that fails on the non-JSON
content `"hello"`, as the real `json.loads` does. -/
theorem C1_parse_failure_aborts_scan_without_enqueue_witness :
    processDir (fun _ => .error (.jsonDecodeError "Expecting value")) "/watch"
      Option.none ⟨"jobA", .ok "hello", true⟩ =
      ⟨some "hello", false, Option.none, some (.jsonDecodeError "Expecting value")⟩ ∧
    (scanCycle (fun _ => .error (.jsonDecodeError "Expecting value")) "/watch"
        Option.none [⟨"jobA", .ok "hello", true⟩, ⟨"jobB", .ok "", true⟩]).2 =
      [⟨some "hello", false, Option.none, some (.jsonDecodeError "Expecting value")⟩] :=
  C1_parse_failure_aborts_scan_without_enqueue
    (fun _ => .error (.jsonDecodeError "Expecting value"))
    (.jsonDecodeError "Expecting value") rfl

/-- **C10** (confirmed). `kundendaten` is assigned only inside the guarded
read and never reset between iterations of `MonitorThread.run`'s loop.
(1) If the very first matching directory's read fails, the subsequent
`if kundendaten:` is an uninitialized-variable (`UnboundLocalError`) use;
(2) at scan level that aborts the cycle (a two-directory scan produces one
step result); (3) for a later directory whose read fails, the step behaves
exactly as if that directory's own marker content were the previously read
directory's content `s` — its Job, when one is enqueued, is built from the
stale content. -/
theorem C10_stale_kundendaten_binding
    (loads : String → Except PyErr PyVal) (scanPath : String) (e : PyErr)
    (s nm : String) (rok : Bool) (rest : List DirScan) :
    processDir loads scanPath Option.none ⟨nm, .error e, rok⟩ =
      ⟨Option.none, false, Option.none, some PyErr.unboundLocalError⟩ ∧
    (scanCycle loads scanPath Option.none (⟨nm, .error e, rok⟩ :: rest)).2 =
      [⟨Option.none, false, Option.none, some PyErr.unboundLocalError⟩] ∧
    processDir loads scanPath (some s) ⟨nm, .error e, rok⟩ =
      processDir loads scanPath (some s) ⟨nm, .ok s, rok⟩ := by
  refine ⟨rfl, ?_, rfl⟩
  simp [scanCycle, processDir]

/-- **C6** (confirmed). For a dequeued non-sentinel Job, whenever the worker
goes on to the next dequeue (`.2 = true`, i.e. `self._is_running` still
holds in the `finally` block), the iteration's trace — whether the body
succeeded or raised — ends with the reset tuple `(0,0,0)` on the file and
the directory progress channels, the `task_done` acknowledgement and the
waiting-for-next-job status, all emitted before the loop continues. -/
theorem C6_worker_always_resets_and_acks
    (job : Job) (uploadResult : Except PyErr Bool) (shareLink : Option String)
    (runningAtGet runningAtFinally : Bool)
    (hcont : (runIteration (some job) runningAtGet uploadResult shareLink
        runningAtFinally).2 = true) :
    ∃ pre, (runIteration (some job) runningAtGet uploadResult shareLink
        runningAtFinally).1 =
      pre ++ [.progressFile 0 0 0, .progressTotal 0 0 0, .taskDone,
              .status "Warte auf nächsten Auftrag..."] := by
  cases runningAtGet with
  | false => simp [runIteration] at hcont
  | true =>
    cases runningAtFinally with
    | false => simp [runIteration] at hcont
    | true =>
      cases h : uploaderTryBody job uploadResult shareLink with
      | mk body err =>
        cases err with
        | none =>
          exact ⟨body, by simp [runIteration, h, uploaderFinally]⟩
        | some e =>
          refine ⟨body ++ [.status ("Fehler: " ++ basename job.dir_path)]
              ++ (if job.dir_path ≠ "" then [.archive "fehler" job.dir_path] else [])
              ++ [.emailFailure (basename job.dir_path) (pyErrStr e)], ?_⟩
          by_cases hd : job.dir_path = "" <;>
            simp [runIteration, h, uploaderFinally, hd, List.append_assoc]

/-- Witness for C6 at a concrete Job whose upload succeeds. -/
theorem C6_worker_always_resets_and_acks_witness :
    ∃ pre, (runIteration (some ⟨"/watch/jobA", Option.none⟩) true (.ok true)
        (some "https://e.xy/s") true).1 =
      pre ++ [.progressFile 0 0 0, .progressTotal 0 0 0, .taskDone,
              .status "Warte auf nächsten Auftrag..."] :=
  C6_worker_always_resets_and_acks ⟨"/watch/jobA", Option.none⟩ (.ok true)
    (some "https://e.xy/s") true true rfl

/-- **C7 counterexample.** A `200` response whose JSON object has no
`short_url` key: `shorten` returns Python `None` — neither the shortened
nor the original URL. The claim "on any failure it returns the original
long URL unchanged, so a shortening failure can never change or lose the
link" fails at this input: the link is lost. -/
theorem C7_missing_short_url_loses_link :
    shorten (some "https://sky.example/api") (some "key") "https://long.example/x"
      (.response 200 (.ok (.dict []))) = .ok PyVal.none ∧
    (Except.ok PyVal.none : Except PyErr PyVal) ≠ .ok (.str "https://long.example/x") :=
  ⟨rfl, by intro h; injection h with h'; injection h'⟩

/-- **C7 as amended** (corrected). On each of the failures the claim
enumerates — missing configuration, timeout, connection error, non-success
HTTP status — `shorten` does return the original long URL unchanged and
does not raise; but a success-status response whose JSON object lacks
`short_url` makes it return `None` (the link is dropped, see the
counterexample), so "never lose the link" does not hold in general. -/
theorem C7_enumerated_failures_return_original
    (apiUrl apiKey : Option String) (longUrl : String) (out : ReqOutcome) :
    (truthyStr apiUrl = false → shorten apiUrl apiKey longUrl out = .ok (.str longUrl)) ∧
    (out = .timeout → shorten apiUrl apiKey longUrl out = .ok (.str longUrl)) ∧
    (∀ msg, out = .requestError msg →
      shorten apiUrl apiKey longUrl out = .ok (.str longUrl)) ∧
    (∀ statusCode body, out = .response statusCode body →
      statusCode ≠ 200 → statusCode ≠ 201 →
      shorten apiUrl apiKey longUrl out = .ok (.str longUrl)) := by
  refine ⟨fun h => by simp [shorten, h], ?_, ?_, ?_⟩
  · rintro rfl
    by_cases h : truthyStr apiUrl = false <;> simp [shorten, h]
  · rintro msg rfl
    by_cases h : truthyStr apiUrl = false <;> simp [shorten, h]
  · rintro statusCode body rfl h200 h201
    by_cases h : truthyStr apiUrl = false <;> simp [shorten, h, h200, h201]

/-- Witness for C7's amended statement, one instance per enumerated
failure. -/
theorem C7_enumerated_failures_return_original_witness :
    shorten Option.none (some "k") "https://long.example/x" .timeout =
      .ok (.str "https://long.example/x") ∧
    shorten (some "https://sky.example/api") (some "k") "https://long.example/x"
      .timeout = .ok (.str "https://long.example/x") ∧
    shorten (some "https://sky.example/api") (some "k") "https://long.example/x"
      (.requestError "connection refused") = .ok (.str "https://long.example/x") ∧
    shorten (some "https://sky.example/api") (some "k") "https://long.example/x"
      (.response 500 (.ok (.dict []))) = .ok (.str "https://long.example/x") :=
  ⟨(C7_enumerated_failures_return_original Option.none (some "k")
      "https://long.example/x" .timeout).1 rfl,
   (C7_enumerated_failures_return_original (some "https://sky.example/api") (some "k")
      "https://long.example/x" .timeout).2.1 rfl,
   (C7_enumerated_failures_return_original (some "https://sky.example/api") (some "k")
      "https://long.example/x" (.requestError "connection refused")).2.2.1
      "connection refused" rfl,
   (C7_enumerated_failures_return_original (some "https://sky.example/api") (some "k")
      "https://long.example/x" (.response 500 (.ok (.dict [])))).2.2.2
      500 (.ok (.dict [])) rfl (by decide) (by decide)⟩

/-- Appending a non-empty separator plus any suffix yields a different
string (by length). -/
theorem append_sep_ne (s sep u : String) (h : 0 < sep.length) : s ++ sep ++ u ≠ s := by
  intro he
  have hl := congrArg String.length he
  rw [String.length_append, String.length_append] at hl
  omega

/-- **C5** (confirmed). Two scenarios for
`archive_directory` (uploader.py 127–158), both under a configured archive
path. (A) When the computed destination
`archiveRoot/bucket/baseName` already exists, the destination is suffixed
with the current Unix timestamp — a path distinct from the occupied one —
the directory is moved there, the pre-existing archived directory survives
untouched, and the in-progress marker at the destination is removed.
(B) Archiving twice with colliding base names: the first call lands on the
plain destination, the second on a timestamp-suffixed one, so the two
destination paths are distinct and the first archived directory is still
present after the second call. -/
theorem C5_archive_never_clobbers
    (fs : List String) (m m2 : Bool) (base sub l1 l2 : String) (t1 t2 : Nat)
    (hbase : base ≠ "")
    (hsrc : l1 ≠ base ++ "/" ++ sub ++ "/" ++ basename l1) :
    ((base ++ "/" ++ sub ++ "/" ++ basename l1) ∈ fs →
      (archive_directory fs m (some base) sub l1 t1).dest =
        some (base ++ "/" ++ sub ++ "/" ++ basename l1 ++ "_" ++ toString t1) ∧
      (base ++ "/" ++ sub ++ "/" ++ basename l1 ++ "_" ++ toString t1) ≠
        (base ++ "/" ++ sub ++ "/" ++ basename l1) ∧
      (base ++ "/" ++ sub ++ "/" ++ basename l1) ∈ (archive_directory fs m (some base) sub l1 t1).fs ∧
      (archive_directory fs m (some base) sub l1 t1).destHasMarker = false) ∧
    ((base ++ "/" ++ sub ++ "/" ++ basename l1) ∉ fs →
      basename l2 = basename l1 →
      l2 ≠ base ++ "/" ++ sub ++ "/" ++ basename l1 →
      (archive_directory fs m (some base) sub l1 t1).dest =
        some (base ++ "/" ++ sub ++ "/" ++ basename l1) ∧
      (archive_directory (archive_directory fs m (some base) sub l1 t1).fs m2
          (some base) sub l2 t2).dest =
        some (base ++ "/" ++ sub ++ "/" ++ basename l1 ++ "_" ++ toString t2) ∧
      (archive_directory (archive_directory fs m (some base) sub l1 t1).fs m2
          (some base) sub l2 t2).dest ≠
        (archive_directory fs m (some base) sub l1 t1).dest ∧
      (base ++ "/" ++ sub ++ "/" ++ basename l1) ∈
        (archive_directory (archive_directory fs m (some base) sub l1 t1).fs m2
          (some base) sub l2 t2).fs) := by
  have htr : truthyStr (some base) = true := by simp [truthyStr, hbase]
  have hsep : (0:Nat) < ("_" : String).length := by decide
  have hslash : (0:Nat) < ("/" : String).length := by decide
  have hne := append_sep_ne (base ++ "/" ++ sub ++ "/" ++ basename l1) "_" (toString t1) hsep
  constructor
  · intro hcol
    by_cases ht : (base ++ "/" ++ sub) ∈ fs
    · have he : archive_directory fs m (some base) sub l1 t1 =
          ⟨(base ++ "/" ++ sub ++ "/" ++ basename l1 ++ "_" ++ toString t1) :: fs.erase l1,
           some (base ++ "/" ++ sub ++ "/" ++ basename l1 ++ "_" ++ toString t1), false⟩ := by
        simp [archive_directory, htr, ht, hcol]
      rw [he]
      exact ⟨rfl, hne,
        List.mem_cons_of_mem _ ((List.mem_erase_of_ne (Ne.symm hsrc)).mpr hcol), rfl⟩
    · have he : archive_directory fs m (some base) sub l1 t1 =
          ⟨(base ++ "/" ++ sub ++ "/" ++ basename l1 ++ "_" ++ toString t1) ::
             ((base ++ "/" ++ sub) :: fs).erase l1,
           some (base ++ "/" ++ sub ++ "/" ++ basename l1 ++ "_" ++ toString t1), false⟩ := by
        simp [archive_directory, htr, ht, hcol]
      rw [he]
      exact ⟨rfl, hne,
        List.mem_cons_of_mem _
          ((List.mem_erase_of_ne (Ne.symm hsrc)).mpr (List.mem_cons_of_mem _ hcol)), rfl⟩
  · intro hno hb2 hl2
    have hdne := append_sep_ne (base ++ "/" ++ sub) "/" (basename l1) hslash
    have hne2 := append_sep_ne (base ++ "/" ++ sub ++ "/" ++ basename l1) "_" (toString t2) hsep
    by_cases ht : (base ++ "/" ++ sub) ∈ fs
    · have he1 : archive_directory fs m (some base) sub l1 t1 =
          ⟨(base ++ "/" ++ sub ++ "/" ++ basename l1) :: fs.erase l1,
           some (base ++ "/" ++ sub ++ "/" ++ basename l1), false⟩ := by
        simp [archive_directory, htr, ht, hno]
      rw [he1]
      have hm1 : (base ++ "/" ++ sub ++ "/" ++ basename l1) ∈
          (base ++ "/" ++ sub ++ "/" ++ basename l1) :: fs.erase l1 := List.mem_cons_self _ _
      by_cases ht2 : (base ++ "/" ++ sub) ∈
          (base ++ "/" ++ sub ++ "/" ++ basename l1) :: fs.erase l1
      · have he2 : archive_directory
            ((base ++ "/" ++ sub ++ "/" ++ basename l1) :: fs.erase l1) m2
            (some base) sub l2 t2 =
            ⟨(base ++ "/" ++ sub ++ "/" ++ basename l1 ++ "_" ++ toString t2) ::
               (((base ++ "/" ++ sub ++ "/" ++ basename l1) :: fs.erase l1).erase l2),
             some (base ++ "/" ++ sub ++ "/" ++ basename l1 ++ "_" ++ toString t2), false⟩ := by
          simp [archive_directory, htr, ht2, hb2, hm1]
        rw [he2]
        refine ⟨rfl, rfl, by simpa using hne2, ?_⟩
        exact List.mem_cons_of_mem _ ((List.mem_erase_of_ne (Ne.symm hl2)).mpr hm1)
      · have he2 : archive_directory
            ((base ++ "/" ++ sub ++ "/" ++ basename l1) :: fs.erase l1) m2
            (some base) sub l2 t2 =
            ⟨(base ++ "/" ++ sub ++ "/" ++ basename l1 ++ "_" ++ toString t2) ::
               (((base ++ "/" ++ sub) ::
                 (base ++ "/" ++ sub ++ "/" ++ basename l1) :: fs.erase l1).erase l2),
             some (base ++ "/" ++ sub ++ "/" ++ basename l1 ++ "_" ++ toString t2), false⟩ := by
          simp [archive_directory, htr, ht2, hb2, hm1]
        rw [he2]
        refine ⟨rfl, rfl, by simpa using hne2, ?_⟩
        exact List.mem_cons_of_mem _
          ((List.mem_erase_of_ne (Ne.symm hl2)).mpr (List.mem_cons_of_mem _ hm1))
    · have he1 : archive_directory fs m (some base) sub l1 t1 =
          ⟨(base ++ "/" ++ sub ++ "/" ++ basename l1) ::
             ((base ++ "/" ++ sub) :: fs).erase l1,
           some (base ++ "/" ++ sub ++ "/" ++ basename l1), false⟩ := by
        simp [archive_directory, htr, ht, hno, hdne]
      rw [he1]
      have hm1 : (base ++ "/" ++ sub ++ "/" ++ basename l1) ∈
          (base ++ "/" ++ sub ++ "/" ++ basename l1) ::
            ((base ++ "/" ++ sub) :: fs).erase l1 := List.mem_cons_self _ _
      by_cases ht2 : (base ++ "/" ++ sub) ∈
          (base ++ "/" ++ sub ++ "/" ++ basename l1) :: ((base ++ "/" ++ sub) :: fs).erase l1
      · have he2 : archive_directory
            ((base ++ "/" ++ sub ++ "/" ++ basename l1) ::
              ((base ++ "/" ++ sub) :: fs).erase l1) m2 (some base) sub l2 t2 =
            ⟨(base ++ "/" ++ sub ++ "/" ++ basename l1 ++ "_" ++ toString t2) ::
               (((base ++ "/" ++ sub ++ "/" ++ basename l1) ::
                 ((base ++ "/" ++ sub) :: fs).erase l1).erase l2),
             some (base ++ "/" ++ sub ++ "/" ++ basename l1 ++ "_" ++ toString t2), false⟩ := by
          simp [archive_directory, htr, ht2, hb2, hm1]
        rw [he2]
        refine ⟨rfl, rfl, by simpa using hne2, ?_⟩
        exact List.mem_cons_of_mem _ ((List.mem_erase_of_ne (Ne.symm hl2)).mpr hm1)
      · have he2 : archive_directory
            ((base ++ "/" ++ sub ++ "/" ++ basename l1) ::
              ((base ++ "/" ++ sub) :: fs).erase l1) m2 (some base) sub l2 t2 =
            ⟨(base ++ "/" ++ sub ++ "/" ++ basename l1 ++ "_" ++ toString t2) ::
               (((base ++ "/" ++ sub) :: (base ++ "/" ++ sub ++ "/" ++ basename l1) ::
                 ((base ++ "/" ++ sub) :: fs).erase l1).erase l2),
             some (base ++ "/" ++ sub ++ "/" ++ basename l1 ++ "_" ++ toString t2), false⟩ := by
          simp [archive_directory, htr, ht2, hb2, hm1]
        rw [he2]
        refine ⟨rfl, rfl, by simpa using hne2, ?_⟩
        exact List.mem_cons_of_mem _
          ((List.mem_erase_of_ne (Ne.symm hl2)).mpr (List.mem_cons_of_mem _ hm1))

/-- Witness for C5: concrete collision (part A) and concrete two-call
scenario (part B). -/
theorem C5_archive_never_clobbers_witness :
    ((archive_directory ["/arch/erfolg/jobA"] true (some "/arch") "erfolg"
        "/watch/jobA" 1700000001).dest = some "/arch/erfolg/jobA_1700000001" ∧
      "/arch/erfolg/jobA_1700000001" ≠ "/arch/erfolg/jobA" ∧
      "/arch/erfolg/jobA" ∈ (archive_directory ["/arch/erfolg/jobA"] true (some "/arch")
        "erfolg" "/watch/jobA" 1700000001).fs ∧
      (archive_directory ["/arch/erfolg/jobA"] true (some "/arch") "erfolg"
        "/watch/jobA" 1700000001).destHasMarker = false) ∧
    ((archive_directory [] true (some "/arch") "erfolg" "/watch/jobA" 1700000002).dest =
        some "/arch/erfolg/jobA" ∧
      (archive_directory (archive_directory [] true (some "/arch") "erfolg"
          "/watch/jobA" 1700000002).fs false (some "/arch") "erfolg"
          "/other/jobA" 1700000003).dest = some "/arch/erfolg/jobA_1700000003" ∧
      (archive_directory (archive_directory [] true (some "/arch") "erfolg"
          "/watch/jobA" 1700000002).fs false (some "/arch") "erfolg"
          "/other/jobA" 1700000003).dest ≠
        (archive_directory [] true (some "/arch") "erfolg" "/watch/jobA" 1700000002).dest ∧
      "/arch/erfolg/jobA" ∈ (archive_directory (archive_directory [] true (some "/arch")
          "erfolg" "/watch/jobA" 1700000002).fs false (some "/arch") "erfolg"
          "/other/jobA" 1700000003).fs) := by
  have hA := (C5_archive_never_clobbers ["/arch/erfolg/jobA"] true true "/arch" "erfolg"
      "/watch/jobA" "/watch/jobA" 1700000001 1700000001 (by decide) (by decide)).1 (by decide)
  have hB := (C5_archive_never_clobbers [] true false "/arch" "erfolg"
      "/watch/jobA" "/other/jobA" 1700000002 1700000003 (by decide) (by decide)).2
      (by decide) (by decide) (by decide)
  exact ⟨hA, hB⟩

/-- A customer record carrying a phone number but no email, as C8's
counterexample input. -/
def kundePhoneOnly : Kunde :=
  { phone := some "+491701234567", first_name := some "Max" }

/-- **C8 counterexample.** The claim says a success notification is invoked
when a link was obtained and the Job's customer has *an email or phone*.
The code's guard is `if share_link and kunde and kunde.email:` — with a
link present and a customer that has a phone number but no email, nothing
is sent (and, since `kunde` is not `None`, no warning is logged either):
the notification block emits no event at all. -/
theorem C8_phone_only_customer_not_notified :
    kundePhoneOnly.phone = some "+491701234567" ∧
    kundePhoneOnly.email = Option.none ∧
    notifySequence "jobA" (some "https://e.xy/s") (some kundePhoneOnly) = [] := ⟨rfl, rfl, rfl⟩

/-- **C8 as amended** (corrected). With a truthy link and a customer whose
*email* is truthy, the worker sends the success email and then attempts the
SMS; and whenever the Job has no customer record at all, notification is
skipped with a warning. (A customer without a truthy email gets nothing —
"email or phone" in the claim does not match the code's `kunde.email`
guard.) -/
theorem C8_notification_requires_email
    (dirName : String) (shareLink : Option String) (kunde : Option Kunde) :
    (∀ k, kunde = some k → truthyStr shareLink = true → truthyStr k.email = true →
      notifySequence dirName shareLink kunde =
        [.emailSuccess dirName (shareLink.getD "") (k.email.getD ""),
         .smsAttempt (shareLink.getD "")]) ∧
    (kunde = Option.none → notifySequence dirName shareLink kunde = [.warnNoKunde dirName]) := by
  constructor
  · rintro k rfl hl he
    simp [notifySequence, hl, he]
  · rintro rfl
    rfl

/-- Witness for C8's amended statement. -/
theorem C8_notification_requires_email_witness :
    notifySequence "jobA" (some "https://e.xy/s")
      (some { kundePhoneOnly with email := some "max@example.org" }) =
      [.emailSuccess "jobA" "https://e.xy/s" "max@example.org",
       .smsAttempt "https://e.xy/s"] ∧
    notifySequence "jobA" (some "https://e.xy/s") Option.none = [.warnNoKunde "jobA"] :=
  ⟨(C8_notification_requires_email "jobA" (some "https://e.xy/s")
      (some { kundePhoneOnly with email := some "max@example.org" })).1
      { kundePhoneOnly with email := some "max@example.org" } rfl rfl rfl,
   (C8_notification_requires_email "jobA" (some "https://e.xy/s") Option.none).2 rfl⟩

/-- **C2** (confirmed). In the DirectBlobSession variant: for a collected
file whose presigned token was obtained and whose blob `PUT` returned
200/201, a registration response with `not register_response.ok`
(`status ≥ 400`) makes `_upload_file_direct` raise the
registration-orphan error — the already-uploaded bytes are surfaced as an
error — and the whole `upload_directory` call returns `False`, never a
silent success. -/
theorem C2_register_failure_fails_job
    (entries : List (String × Nat)) (f : String × Nat)
    (initResult : Except PyErr Unit) (fileEnvs : String → DirectFileEnv)
    (tok path : String)
    (hf : f ∈ collectUploadFiles entries)
    (hpres : (fileEnvs f.1).presign = .ok (tok, path))
    (htok : tok ≠ "") (hpath : path ≠ "")
    (hput : (fileEnvs f.1).putStatus = 200 ∨ (fileEnvs f.1).putStatus = 201)
    (hreg : 400 ≤ (fileEnvs f.1).registerStatus) :
    upload_file_direct (fileEnvs f.1) =
      .error (.exc ("File registration failed: HTTP "
        ++ toString (fileEnvs f.1).registerStatus
        ++ " Response: " ++ (fileEnvs f.1).registerText
        ++ " File uploaded to Blob but NOT registered in database!")) ∧
    (uploadDirectoryDirect entries initResult fileEnvs).1 = false := by
  have hfile : upload_file_direct (fileEnvs f.1) =
      .error (.exc ("File registration failed: HTTP "
        ++ toString (fileEnvs f.1).registerStatus
        ++ " Response: " ++ (fileEnvs f.1).registerText
        ++ " File uploaded to Blob but NOT registered in database!")) := by
    rcases hput with h | h <;>
      simp [upload_file_direct, hpres, htok, hpath, h, hreg]
  refine ⟨hfile, ?_⟩
  have hnonempty : (collectUploadFiles entries).isEmpty = false := by
    cases hc : collectUploadFiles entries with
    | nil => rw [hc] at hf; cases hf
    | cons a l => simp
  have hall : (collectUploadFiles entries).all
      (fun g => match upload_file_direct (fileEnvs g.1) with
                | .ok b => b
                | .error _ => false) = false := by
    rw [List.all_eq_false]
    exact ⟨f, hf, by simp [hfile]⟩
  cases initResult with
  | error e => simp [uploadDirectoryDirect, hnonempty]
  | ok u => simp [uploadDirectoryDirect, hnonempty, hall]

/-- Witness for C2: one real file, token obtained, `PUT` 200,
registration 500. -/
theorem C2_register_failure_fails_job_witness :
    upload_file_direct ⟨.ok ("tok", "tenant/order/a.jpg"), 200, 500, "boom", .ok (.dict [])⟩ =
      .error (.exc ("File registration failed: HTTP 500 Response: boom"
        ++ " File uploaded to Blob but NOT registered in database!")) ∧
    (uploadDirectoryDirect [("a.jpg", 5)] (.ok ())
      (fun _ => ⟨.ok ("tok", "tenant/order/a.jpg"), 200, 500, "boom", .ok (.dict [])⟩)).1 = false := by
  have h := C2_register_failure_fails_job [("a.jpg", 5)] ("a.jpg", 5) (.ok ())
    (fun _ => ⟨.ok ("tok", "tenant/order/a.jpg"), 200, 500, "boom", .ok (.dict [])⟩)
    "tok" "tenant/order/a.jpg" (by decide) rfl (by decide) (by decide) (Or.inl rfl) (by decide)
  simpa using h

/-- **C9** (confirmed). A directory containing nothing but marker files:
the chunked (Dropbox) variant returns `True`, emits the single final
directory progress `(100, 0, 0)` and uploads no file; the direct-blob
variant returns `True` with an empty network trace — no session init, no
presigned-URL call, no blob `PUT`, no registration, no status poll. -/
theorem C9_marker_only_directory_uploads_nothing
    (entries : List (String × Nat))
    (initResult : Except PyErr Unit) (fileEnvs : String → DirectFileEnv)
    (h : ∀ e ∈ entries, e.1 = "_fertig.txt" ∨ e.1 = "_in_verarbeitung.txt") :
    dropboxUploadDirectory entries = (true, [(100, 0, 0)], []) ∧
    uploadDirectoryDirect entries initResult fileEnvs = (true, []) := by
  have hempty : collectUploadFiles entries = [] := by
    rw [collectUploadFiles, List.filter_eq_nil_iff]
    intro e he
    rcases h e he with h1 | h1 <;> simp [h1]
  constructor
  · simp [dropboxUploadDirectory, hempty]
  · simp [uploadDirectoryDirect, hempty]

/-- Witness for C9 on the concrete marker-only directory. -/
theorem C9_marker_only_directory_uploads_nothing_witness :
    dropboxUploadDirectory [("_fertig.txt", 12), ("_in_verarbeitung.txt", 3)] =
      (true, [(100, 0, 0)], []) ∧
    uploadDirectoryDirect [("_fertig.txt", 12), ("_in_verarbeitung.txt", 3)] (.ok ())
      (fun _ => ⟨.error (.exc "unused"), 0, 0, "", .error ""⟩) = (true, []) :=
  C9_marker_only_directory_uploads_nothing
    [("_fertig.txt", 12), ("_in_verarbeitung.txt", 3)] (.ok ())
    (fun _ => ⟨.error (.exc "unused"), 0, 0, "", .error ""⟩)
    (by intro e he; fin_cases he <;> simp)

/-! ## Chunk-structure helper lemmas for `_upload_large_file` -/

theorem CHUNK_SIZE_pos : 0 < CHUNK_SIZE := by norm_num [CHUNK_SIZE]

theorem chunksFrom_sum_aux (size : Nat) :
    ∀ (n tell : Nat), size - tell ≤ n → tell ≤ size →
      ((chunksFrom size tell).map (fun c => c.2)).sum = size - tell := by
  intro n
  induction n with
  | zero =>
    intro tell hn _h
    rw [chunksFrom, if_neg (by omega), List.map_cons, List.map_nil,
      List.sum_cons, List.sum_nil]
    rfl
  | succ n ih =>
    intro tell hn h
    by_cases hgt : size - tell > CHUNK_SIZE
    · rw [chunksFrom, if_pos hgt, List.map_cons, List.sum_cons,
        ih (tell + CHUNK_SIZE) (by have := CHUNK_SIZE_pos; omega) (by omega)]
      omega
    · rw [chunksFrom, if_neg hgt, List.map_cons, List.map_nil,
        List.sum_cons, List.sum_nil]
      rfl

/-- The loop plus finish chunks cover exactly the bytes from `tell` to the
end of the file. -/
theorem chunksFrom_sum (size tell : Nat) (h : tell ≤ size) :
    ((chunksFrom size tell).map (fun c => c.2)).sum = size - tell :=
  chunksFrom_sum_aux size (size - tell) tell (le_refl _) h

/-- `chunksFrom` always starts with a chunk at offset `tell`. -/
theorem chunksFrom_head_off (size tell : Nat) :
    ∃ len rest, chunksFrom size tell = (tell, len) :: rest := by
  by_cases hgt : size - tell > CHUNK_SIZE
  · exact ⟨CHUNK_SIZE, chunksFrom size (tell + CHUNK_SIZE), by rw [chunksFrom, if_pos hgt]⟩
  · exact ⟨size - tell, [], by rw [chunksFrom, if_neg hgt]⟩

theorem chunksFrom_chain_aux (size : Nat) :
    ∀ (n tell : Nat), size - tell ≤ n →
      List.Chain' (fun a b : Nat × Nat => a.1 + a.2 = b.1) (chunksFrom size tell) := by
  intro n
  induction n with
  | zero =>
    intro tell hn
    rw [chunksFrom, if_neg (by omega)]
    exact List.chain'_singleton _
  | succ n ih =>
    intro tell hn
    by_cases hgt : size - tell > CHUNK_SIZE
    · rw [chunksFrom, if_pos hgt]
      obtain ⟨len, rest, heq⟩ := chunksFrom_head_off size (tell + CHUNK_SIZE)
      rw [heq]
      refine List.chain'_cons.mpr ⟨rfl, ?_⟩
      rw [← heq]
      exact ih (tell + CHUNK_SIZE) (by have := CHUNK_SIZE_pos; omega)
    · rw [chunksFrom, if_neg hgt]
      exact List.chain'_singleton _

/-- Consecutive chunks are contiguous: each chunk starts where the previous
one ended. -/
theorem chunksFrom_chain (size tell : Nat) :
    List.Chain' (fun a b : Nat × Nat => a.1 + a.2 = b.1) (chunksFrom size tell) :=
  chunksFrom_chain_aux size (size - tell) tell (le_refl _)

theorem chunksFrom_mem_aux (size : Nat) :
    ∀ (n tell : Nat), size - tell ≤ n → tell < size →
      ∀ c ∈ chunksFrom size tell, 0 < c.2 ∧ c.2 ≤ CHUNK_SIZE ∧ c.1 + c.2 ≤ size := by
  intro n
  induction n with
  | zero =>
    intro tell hn h c _hc
    exact absurd h (by omega)
  | succ n ih =>
    intro tell hn h c hc
    by_cases hgt : size - tell > CHUNK_SIZE
    · rw [chunksFrom, if_pos hgt] at hc
      rcases List.mem_cons.mp hc with rfl | hc
      · exact ⟨CHUNK_SIZE_pos, le_refl _, show tell + CHUNK_SIZE ≤ size by omega⟩
      · exact ih (tell + CHUNK_SIZE) (by have := CHUNK_SIZE_pos; omega) (by omega) c hc
    · rw [chunksFrom, if_neg hgt] at hc
      rcases List.mem_singleton.mp hc with rfl
      exact ⟨show 0 < size - tell by omega, show size - tell ≤ CHUNK_SIZE by omega,
        show tell + (size - tell) ≤ size by omega⟩

/-- Every chunk is non-empty, at most `CHUNK_SIZE` long, and stays within
the file. -/
theorem chunksFrom_mem (size tell : Nat) (h : tell < size) :
    ∀ c ∈ chunksFrom size tell, 0 < c.2 ∧ c.2 ≤ CHUNK_SIZE ∧ c.1 + c.2 ≤ size :=
  chunksFrom_mem_aux size (size - tell) tell (le_refl _) h

theorem chunksFrom_dropLast_aux (size : Nat) :
    ∀ (n tell : Nat), size - tell ≤ n →
      ∀ c ∈ (chunksFrom size tell).dropLast, c.2 = CHUNK_SIZE := by
  intro n
  induction n with
  | zero =>
    intro tell hn c hc
    rw [chunksFrom, if_neg (by omega)] at hc
    simp at hc
  | succ n ih =>
    intro tell hn c hc
    by_cases hgt : size - tell > CHUNK_SIZE
    · rw [chunksFrom, if_pos hgt] at hc
      obtain ⟨len, rest, heq⟩ := chunksFrom_head_off size (tell + CHUNK_SIZE)
      rw [heq] at hc
      rw [show ((tell, CHUNK_SIZE) :: (tell + CHUNK_SIZE, len) :: rest).dropLast
            = (tell, CHUNK_SIZE) :: ((tell + CHUNK_SIZE, len) :: rest).dropLast from rfl] at hc
      rcases List.mem_cons.mp hc with rfl | hc
      · rfl
      · rw [← heq] at hc
        exact ih (tell + CHUNK_SIZE) (by have := CHUNK_SIZE_pos; omega) c hc
    · rw [chunksFrom, if_neg hgt] at hc
      simp at hc

/-- Every chunk except the last is a full `CHUNK_SIZE` chunk. -/
theorem chunksFrom_dropLast (size tell : Nat) :
    ∀ c ∈ (chunksFrom size tell).dropLast, c.2 = CHUNK_SIZE :=
  chunksFrom_dropLast_aux size (size - tell) tell (le_refl _)

/-- The full chunk sequence of `_upload_large_file` is contiguous, starting
at offset 0. -/
theorem largeFileChunks_chain (size : Nat) :
    List.Chain' (fun a b : Nat × Nat => a.1 + a.2 = b.1) (largeFileChunks size) := by
  rw [largeFileChunks]
  obtain ⟨len, rest, heq⟩ := chunksFrom_head_off size (min CHUNK_SIZE size)
  rw [heq]
  refine List.chain'_cons.mpr ⟨by simp, ?_⟩
  rw [← heq]
  exact chunksFrom_chain size (min CHUNK_SIZE size)

/-! ## Progress-percentage helper lemmas

`int((a / b) * 100)` over non-negative byte counts is modelled as the
truncating `a * 100 / b` on `Nat`; both are monotone in `a` and stay at or
below 100 whenever `a ≤ b`. -/

theorem pct_le_100 (b total : Nat) (h : b ≤ total) : b * 100 / total ≤ 100 := by
  rcases Nat.eq_zero_or_pos total with h0 | hpos
  · subst h0; simp
  · calc b * 100 / total ≤ total * 100 / total :=
        Nat.div_le_div_right (Nat.mul_le_mul_right 100 h)
    _ = 100 := Nat.mul_div_cancel_left 100 hpos

theorem pct_mono (a b total : Nat) (h : a ≤ b) : a * 100 / total ≤ b * 100 / total :=
  Nat.div_le_div_right (Nat.mul_le_mul_right 100 h)

/-- Each directory-level emission for one file lies between the bytes
completed before the file and those completed after it. -/
theorem dropboxFileTotalBytes_bounds (base s : Nat) :
    ∀ b ∈ dropboxFileTotalBytes base s, base ≤ b ∧ b ≤ base + s := by
  intro b hb
  rw [dropboxFileTotalBytes] at hb
  by_cases hs : s ≤ CHUNK_SIZE
  · rw [if_pos hs] at hb
    rcases List.mem_singleton.mp hb with rfl
    omega
  · rw [if_neg hs] at hb
    obtain ⟨c, hc, rfl⟩ := List.mem_map.mp hb
    have hlt : CHUNK_SIZE < s := by omega
    have hmin : min CHUNK_SIZE s = CHUNK_SIZE := by omega
    rw [largeFileChunks, hmin] at hc
    rcases List.mem_cons.mp hc with rfl | hc
    · exact ⟨by omega, show base + 0 + CHUNK_SIZE ≤ base + s by omega⟩
    · have := chunksFrom_mem s CHUNK_SIZE hlt c hc
      omega

/-- The directory-level byte emissions for one file are non-decreasing. -/
theorem dropboxFileTotalBytes_chain (base s : Nat) :
    List.Chain' (· ≤ ·) (dropboxFileTotalBytes base s) := by
  rw [dropboxFileTotalBytes]
  by_cases hs : s ≤ CHUNK_SIZE
  · rw [if_pos hs]
    exact List.chain'_singleton _
  · rw [if_neg hs]
    rw [List.chain'_map]
    exact List.Chain'.imp (fun a b hab => by omega) (largeFileChunks_chain s)

theorem dropboxTotalBytesList_bounds : ∀ (sizes : List Nat) (base : Nat),
    ∀ b ∈ dropboxTotalBytesList base sizes, base ≤ b ∧ b ≤ base + sizes.sum := by
  intro sizes
  induction sizes with
  | nil =>
    intro base b hb
    simp [dropboxTotalBytesList] at hb
  | cons s rest ih =>
    intro base b hb
    rw [dropboxTotalBytesList] at hb
    rcases List.mem_append.mp hb with h1 | h1
    · have := dropboxFileTotalBytes_bounds base s b h1
      simp only [List.sum_cons]
      omega
    · have := ih (base + s) b h1
      simp only [List.sum_cons]
      omega

/-- The directory-level byte emissions across all files, in upload order,
are non-decreasing. -/
theorem dropboxTotalBytesList_chain : ∀ (sizes : List Nat) (base : Nat),
    List.Chain' (· ≤ ·) (dropboxTotalBytesList base sizes) := by
  intro sizes
  induction sizes with
  | nil =>
    intro base
    simp [dropboxTotalBytesList]
  | cons s rest ih =>
    intro base
    rw [dropboxTotalBytesList, List.chain'_append]
    refine ⟨dropboxFileTotalBytes_chain base s, ih (base + s), ?_⟩
    intro x hx y hy
    have hxb := dropboxFileTotalBytes_bounds base s x (List.mem_of_mem_getLast? hx)
    have hyb := dropboxTotalBytesList_bounds rest (base + s) y (List.mem_of_mem_head? hy)
    omega

theorem directTotalEmissions_le : ∀ (order : List Nat) (counter total : Nat),
    counter + order.sum ≤ total →
    ∀ p ∈ directTotalEmissions counter total order, p ≤ 100 := by
  intro order
  induction order with
  | nil =>
    intro counter total h p hp
    simp [directTotalEmissions] at hp
  | cons s rest ih =>
    intro counter total h p hp
    rw [directTotalEmissions] at hp
    rcases List.mem_cons.mp hp with rfl | hp
    · exact pct_le_100 _ _ (by simp only [List.sum_cons] at h; omega)
    · exact ih (counter + s) total (by simp only [List.sum_cons] at h; omega) p hp

theorem directTotalEmissions_chain : ∀ (order : List Nat) (counter total : Nat),
    List.Chain' (· ≤ ·) (directTotalEmissions counter total order) := by
  intro order
  induction order with
  | nil =>
    intro counter total
    simp [directTotalEmissions]
  | cons s rest ih =>
    intro counter total
    cases rest with
    | nil => simp [directTotalEmissions]
    | cons s2 rest2 =>
      rw [directTotalEmissions,
        show directTotalEmissions (counter + s) total (s2 :: rest2)
          = (counter + s + s2) * 100 / total
            :: directTotalEmissions (counter + s + s2) total rest2 from rfl]
      refine List.chain'_cons.mpr ⟨pct_mono _ _ total (by omega), ?_⟩
      rw [show ((counter + s + s2) * 100 / total)
            :: directTotalEmissions (counter + s + s2) total rest2
          = directTotalEmissions (counter + s) total (s2 :: rest2) from rfl]
      exact ih (counter + s) total

/-- **C3** (confirmed). In the chunked-session upload of one file larger
than `CHUNK_SIZE` (the only case where `_upload_large_file` runs): the
chunk sizes sum to the file's declared size; chunks are contiguous in
order of strictly increasing offset (each positive chunk starts where the
previous ended); the first (session-start) chunk is `CHUNK_SIZE` bytes at
offset 0; all but the last chunk are exactly `CHUNK_SIZE`; the last
(session-finish) chunk is at most `CHUNK_SIZE`. -/
theorem C3_chunked_upload_covers_file (size : Nat) (h : CHUNK_SIZE < size) :
    ((largeFileChunks size).map (fun c => c.2)).sum = size ∧
    List.Chain' (fun a b : Nat × Nat => a.1 + a.2 = b.1) (largeFileChunks size) ∧
    (largeFileChunks size).head? = some (0, CHUNK_SIZE) ∧
    (∀ c ∈ largeFileChunks size, 0 < c.2 ∧ c.2 ≤ CHUNK_SIZE) ∧
    (∀ c ∈ (largeFileChunks size).dropLast, c.2 = CHUNK_SIZE) := by
  have hmin : min CHUNK_SIZE size = CHUNK_SIZE := by omega
  refine ⟨?_, largeFileChunks_chain size, ?_, ?_, ?_⟩
  · rw [largeFileChunks, hmin, List.map_cons, List.sum_cons,
      chunksFrom_sum size CHUNK_SIZE (by omega)]
    show CHUNK_SIZE + (size - CHUNK_SIZE) = size
    omega
  · rw [largeFileChunks, hmin]
    rfl
  · intro c hc
    rw [largeFileChunks, hmin] at hc
    rcases List.mem_cons.mp hc with rfl | hc
    · exact ⟨CHUNK_SIZE_pos, le_refl _⟩
    · have := chunksFrom_mem size CHUNK_SIZE h c hc
      exact ⟨this.1, this.2.1⟩
  · intro c hc
    rw [largeFileChunks, hmin] at hc
    obtain ⟨len, rest, heq⟩ := chunksFrom_head_off size CHUNK_SIZE
    rw [heq] at hc
    rw [show ((0, CHUNK_SIZE) :: (CHUNK_SIZE, len) :: rest).dropLast
          = (0, CHUNK_SIZE) :: ((CHUNK_SIZE, len) :: rest).dropLast from rfl] at hc
    rcases List.mem_cons.mp hc with rfl | hc
    · rfl
    · rw [← heq] at hc
      exact chunksFrom_dropLast size CHUNK_SIZE c hc

/-- Witness for C3 at a file of `2 * CHUNK_SIZE + 5` bytes. -/
theorem C3_chunked_upload_covers_file_witness :
    CHUNK_SIZE < 2 * CHUNK_SIZE + 5 ∧
    (((largeFileChunks (2 * CHUNK_SIZE + 5)).map (fun c => c.2)).sum = 2 * CHUNK_SIZE + 5 ∧
    List.Chain' (fun a b : Nat × Nat => a.1 + a.2 = b.1) (largeFileChunks (2 * CHUNK_SIZE + 5)) ∧
    (largeFileChunks (2 * CHUNK_SIZE + 5)).head? = some (0, CHUNK_SIZE) ∧
    (∀ c ∈ largeFileChunks (2 * CHUNK_SIZE + 5), 0 < c.2 ∧ c.2 ≤ CHUNK_SIZE) ∧
    (∀ c ∈ (largeFileChunks (2 * CHUNK_SIZE + 5)).dropLast, c.2 = CHUNK_SIZE)) :=
  ⟨by norm_num [CHUNK_SIZE],
   C3_chunked_upload_covers_file (2 * CHUNK_SIZE + 5) (by norm_num [CHUNK_SIZE])⟩

/-- **C4** (confirmed). Directory-level progress emissions are integer
percentages in `[0, 100]` (the lower bound is inherent: the embedded
values are `Nat`) and monotonically non-decreasing within one
`upload_directory` call, in both variants: the chunked (Dropbox) variant's
sequential emissions over the collected files, and the parallel
direct-blob variant's lock-guarded emissions over any completion order
(`order` a permutation of the collected file sizes). A run that aborts
mid-way emits a prefix of these sequences, for which both properties
persist. -/
theorem C4_directory_progress_monotone_bounded
    (entriesChunked entriesDirect : List (String × Nat)) (order : List Nat)
    (hperm : order.Perm ((collectUploadFiles entriesDirect).map (fun e => e.2))) :
    (∀ p ∈ dropboxTotalEmissions ((collectUploadFiles entriesChunked).map (fun e => e.2)),
       p ≤ 100) ∧
    List.Chain' (· ≤ ·)
      (dropboxTotalEmissions ((collectUploadFiles entriesChunked).map (fun e => e.2))) ∧
    (∀ p ∈ directTotalEmissions 0
        (((collectUploadFiles entriesDirect).map (fun e => e.2)).sum) order, p ≤ 100) ∧
    List.Chain' (· ≤ ·)
      (directTotalEmissions 0
        (((collectUploadFiles entriesDirect).map (fun e => e.2)).sum) order) := by
  refine ⟨?_, ?_, ?_, directTotalEmissions_chain order 0 _⟩
  · intro p hp
    simp only [dropboxTotalEmissions] at hp
    by_cases h0 : ((collectUploadFiles entriesChunked).map (fun e => e.2)).sum = 0
    · rw [if_pos h0] at hp
      rcases List.mem_singleton.mp hp with rfl
      exact le_refl _
    · rw [if_neg h0] at hp
      obtain ⟨b, hb, rfl⟩ := List.mem_map.mp hp
      have := dropboxTotalBytesList_bounds
        ((collectUploadFiles entriesChunked).map (fun e => e.2)) 0 b hb
      exact pct_le_100 b _ (by omega)
  · simp only [dropboxTotalEmissions]
    by_cases h0 : ((collectUploadFiles entriesChunked).map (fun e => e.2)).sum = 0
    · rw [if_pos h0]
      exact List.chain'_singleton _
    · rw [if_neg h0, List.chain'_map]
      exact List.Chain'.imp (fun a b hab => pct_mono a b _ hab)
        (dropboxTotalBytesList_chain ((collectUploadFiles entriesChunked).map (fun e => e.2)) 0)
  · intro p hp
    refine directTotalEmissions_le order 0 _ ?_ p hp
    rw [hperm.sum_eq]
    omega

/-- Witness for C4 at a two-file job, with the direct-blob files completing
in reversed order. -/
theorem C4_directory_progress_monotone_bounded_witness :
    (∀ p ∈ dropboxTotalEmissions
        ((collectUploadFiles [("a.jpg", 10), ("b.mp4", 30)]).map (fun e => e.2)), p ≤ 100) ∧
    List.Chain' (· ≤ ·)
      (dropboxTotalEmissions
        ((collectUploadFiles [("a.jpg", 10), ("b.mp4", 30)]).map (fun e => e.2))) ∧
    (∀ p ∈ directTotalEmissions 0
        (((collectUploadFiles [("x.jpg", 1), ("y.mp4", 2)]).map (fun e => e.2)).sum)
        [2, 1], p ≤ 100) ∧
    List.Chain' (· ≤ ·)
      (directTotalEmissions 0
        (((collectUploadFiles [("x.jpg", 1), ("y.mp4", 2)]).map (fun e => e.2)).sum)
        [2, 1]) :=
  C4_directory_progress_monotone_bounded [("a.jpg", 10), ("b.mp4", 30)]
    [("x.jpg", 1), ("y.mp4", 2)] [2, 1] (by decide)
